import Mathlib

/-!
Verification of the `PipelineBuilderStack` infrastructure declaration
(`src/tools/pipeline-builder/pipeline_builder_stack.py`).

The whole repository is one declarative CDK stack.  We embed the stack as
explicit Lean data: each construct instantiated in `PipelineBuilderStack.__init__`
becomes a definition, in source order, carrying exactly the properties the
source passes to it.  IAM policy statements and grants become records, and a
small IAM request-evaluation semantics (`statementAllows`) interprets them.
The embedded build-spec phases carry the command strings verbatim (shell
braces and quotes written with hex escapes).
-/

/-- String `s` starts with `p` (computed on the underlying character lists,
mirroring shell/IAM prefix matching). -/
def strStartsWith (s p : String) : Bool :=
  p.data.isPrefixOf s.data

/-- String `s` ends with `p`. -/
def strEndsWith (s p : String) : Bool :=
  p.data.isSuffixOf s.data

/-- String `sub` occurs as a contiguous substring of `s`. -/
def containsSub (s sub : String) : Bool :=
  s.data.tails.any (fun t => sub.data.isPrefixOf t)

/-- CDK removal policies used by the stack. -/
inductive RemovalPolicy
  | destroy
  | retain
deriving DecidableEq

/-- `s3.Bucket` properties the source sets. -/
structure Bucket where
  versioned : Bool
  removal_policy : RemovalPolicy
deriving DecidableEq

/-- `bucket = s3.Bucket(self, "ProjectArtifactsBucket", versioned=True,
removal_policy=RemovalPolicy.DESTROY)`. -/
def bucket : Bucket :=
  { versioned := true
    removal_policy := RemovalPolicy.destroy }

/-- `codeartifact.CfnDomain` properties. -/
structure CfnDomain where
  domain_name : String
deriving DecidableEq

/-- `codeartifact_domain = codeartifact.CfnDomain(self, "ArtifactDomain",
domain_name="industry-toolkit-experimental")`. -/
def codeartifact_domain : CfnDomain :=
  { domain_name := "industry-toolkit-experimental" }

/-- `codeartifact.CfnRepository` properties. -/
structure CfnRepository where
  domain_name : String
  repository_name : String
deriving DecidableEq

/-- `codeartifact_repository = codeartifact.CfnRepository(self,
"ArtifactRepository", domain_name=codeartifact_domain.domain_name,
repository_name="industry-toolkit-experimental")`. -/
def codeartifact_repository : CfnRepository :=
  { domain_name := codeartifact_domain.domain_name
    repository_name := "industry-toolkit-experimental" }

/-- One phase of a CodeBuild build spec: its name and command list. -/
structure BuildPhase where
  phase_name : String
  commands : List String
deriving DecidableEq

/-- The `pre_build` phase commands of the build spec, verbatim from the
source (shell `{`/`}` written as `\x7b`/`\x7d`). -/
def pre_build_commands : List String :=
  [ "aws --version"
  , "export CODEARTIFACT_AUTH_TOKEN=`aws codeartifact get-authorization-token --domain $\x7bCODEARTIFACT_DOMAIN\x7d --query authorizationToken --output text`"
  , "AWS_ACCOUNT_ID=`aws sts get-caller-identity --query Account --output text`"
  , "BASE_DIR=`pwd`"
  , "UNZIP_DIR=`/usr/bin/uuidgen`" ]

/-- The `build` phase commands of the build spec, verbatim from the source
(shell `{`/`}` as `\x7b`/`\x7d`, single quotes as `\x27`). -/
def build_commands : List String :=
  [ "aws s3 cp $\x7bPROJECT_S3_ZIP\x7d project.zip"
  , "unzip project.zip -d $\x7bUNZIP_DIR\x7d"
  , "cd $\x7bUNZIP_DIR\x7d"
  , "PROJECT_NAME=`ls -1 | head -1`"
  , "cd $\x7bPROJECT_NAME\x7d"
  , "./gradlew build"
  , "cd build/generated-sdk/typescript"
  , "npm install"
  , "npm run build"
  , "cp package.json dist/"
  , "cd dist"
  , "aws codeartifact login --tool npm --repository $\x7bCODEARTIFACT_REPOSITORY\x7d --domain $\x7bCODEARTIFACT_DOMAIN\x7d"
  , "npm publish"
  , "cd $\x7bBASE_DIR\x7d/$\x7bUNZIP_DIR\x7d/$\x7bPROJECT_NAME\x7d"
  , "cd build/generated-sdk/java"
  , "chmod +x gradlew"
  , "sed -i \x27/publishing \x7b/r ../../../codeartifact-maven-repo.txt\x27 build.gradle"
  , "./gradlew build"
  , "./gradlew publish" ]

/-- A build spec: version string and ordered phases. -/
structure BuildSpec where
  version : String
  phases : List BuildPhase
deriving DecidableEq

/-- The object passed to `codebuild.BuildSpec.from_object_to_yaml` (version
`0.2`, phases `pre_build` then `build`, in source order). -/
def build_spec : BuildSpec :=
  { version := "0.2"
    phases :=
      [ { phase_name := "pre_build", commands := pre_build_commands }
      , { phase_name := "build", commands := build_commands } ] }

/-- `codebuild.Project` properties the source sets. -/
structure BuildProject where
  build_image : String
  environment_variables : List (String × String)
  spec : BuildSpec
deriving DecidableEq

/-- `build_project = codebuild.Project(self, "BuildProject", ...)`: the
Amazon Linux 2 image, two environment variables taken from the repository
construct's properties, and the build spec above. -/
def build_project : BuildProject :=
  { build_image := "AMAZON_LINUX_2_5"
    environment_variables :=
      [ ("CODEARTIFACT_DOMAIN", codeartifact_repository.domain_name)
      , ("CODEARTIFACT_REPOSITORY", codeartifact_repository.repository_name) ]
    spec := build_spec }

/-- `secretsmanager.Secret` properties the source sets (the `secret_name`
line is commented out in the source, so only the description remains). -/
structure Secret where
  description : String
deriving DecidableEq

/-- `git_secret = secretsmanager.Secret(self, "GitHubPATSecret",
description=...)`. -/
def git_secret : Secret :=
  { description := "Secret for storing GitHub Personal Access Token (PAT)" }

/-- Deploy-time attribute references (CDK tokens) used to wire resources
into the function's environment and the policy statements. -/
inductive Attr
  | bucket_name
  | secret_arn
  | build_project_name
  | build_project_arn
deriving DecidableEq

/-- The logical id of the construct each attribute reference resolves
against. -/
def attr_owner : Attr → String
  | Attr.bucket_name => "ProjectArtifactsBucket"
  | Attr.secret_arn => "GitHubPATSecret"
  | Attr.build_project_name => "BuildProject"
  | Attr.build_project_arn => "BuildProject"

/-- `_lambda.Function` properties the source sets. -/
structure LambdaFunction where
  runtime : String
  timeout_minutes : Nat
  handler : String
  environment : List (String × Attr)
  layers : List String
deriving DecidableEq

/-- `project_generator_lambda = _lambda.Function(self,
"PipelineBuilderLambda", ...)`: Python 3.12 runtime, 5-minute timeout, three
environment variables referencing the bucket, the secret and the build
project, and two layers. -/
def project_generator_lambda : LambdaFunction :=
  { runtime := "PYTHON_3_12"
    timeout_minutes := 5
    handler := "pipeline_builder_lambda.handler"
    environment :=
      [ ("BUCKET_NAME", Attr.bucket_name)
      , ("GIT_SECRET_ARN", Attr.secret_arn)
      , ("CODEBUILD_PROJECT", Attr.build_project_name) ]
    layers := [ "PipelineBuilderLayer", "GitLayer" ] }

/-- A method declared on an API resource: HTTP verb plus the lambda
integration target.  `apigateway.LambdaIntegration` with no options is the
default synchronous (request/response) proxy integration. -/
structure ApiMethod where
  http_method : String
  integration_target : String
  synchronous : Bool
deriving DecidableEq

/-- A REST API resource: its path part and its methods. -/
structure ApiResource where
  path_part : String
  methods : List ApiMethod
deriving DecidableEq

/-- The resources added under `api.root`: exactly one call
`project = api.root.add_resource("project")` followed by one call
`project.add_method("POST", apigateway.LambdaIntegration(project_generator_lambda))`. -/
def api_resources : List ApiResource :=
  [ { path_part := "project"
      methods :=
        [ { http_method := "POST"
            integration_target := "PipelineBuilderLambda"
            synchronous := true } ] } ]

/-- IAM statement effect. -/
inductive Effect
  | allow
  | deny
deriving DecidableEq

/-- Concrete resources a request can name: the stack's own resources, or
any other ARN (an arbitrary string). -/
inductive ResId
  | buildProjectRes
  | gitSecretRes
  | bucketRes
  | other (arn : String)
deriving DecidableEq

/-- A resource entry of a policy statement: the wildcard `"*"` or one
specific resource ARN. -/
inductive ArnPattern
  | star
  | exact (r : ResId)
deriving DecidableEq

/-- An IAM condition entry, e.g. `StringEquals sts:AWSServiceName
[codeartifact.amazonaws.com]`. -/
structure Condition where
  op : String
  key : String
  values : List String
deriving DecidableEq

/-- An `iam.PolicyStatement`. -/
structure PolicyStatement where
  effect : Effect
  actions : List String
  resources : List ArnPattern
  conditions : List Condition
deriving DecidableEq

/-- The statement added to the function's role:
`actions=["codebuild:StartBuild"], resources=[build_project.project_arn]`. -/
def start_build_statement : PolicyStatement :=
  { effect := Effect.allow
    actions := ["codebuild:StartBuild"]
    resources := [ArnPattern.exact ResId.buildProjectRes]
    conditions := [] }

/-- The first statement added to the build project's role:
`actions=["codeartifact:*"], resources=["*"]`. -/
def codeartifact_statement : PolicyStatement :=
  { effect := Effect.allow
    actions := ["codeartifact:*"]
    resources := [ArnPattern.star]
    conditions := [] }

/-- The second statement added to the build project's role:
`actions=["sts:GetServiceBearerToken"], resources=["*"]` with the
`StringEquals` condition on `sts:AWSServiceName`. -/
def bearer_token_statement : PolicyStatement :=
  { effect := Effect.allow
    actions := ["sts:GetServiceBearerToken"]
    resources := [ArnPattern.star]
    conditions :=
      [ { op := "StringEquals"
          key := "sts:AWSServiceName"
          values := ["codeartifact.amazonaws.com"] } ] }

/-- All statements the stack adds to the function's role via
`add_to_role_policy`. -/
def project_generator_lambda_role_policies : List PolicyStatement :=
  [start_build_statement]

/-- All statements the stack adds to the build project's role via
`add_to_role_policy`. -/
def build_project_role_policies : List PolicyStatement :=
  [codeartifact_statement, bearer_token_statement]

/-- An IAM request: an action name, the resource it targets, and the
request context keys. -/
structure Request where
  action : String
  resource : ResId
  context : List (String × String)
deriving DecidableEq

/-- Look up a context key. -/
def lookupCtx (ctx : List (String × String)) (k : String) : Option String :=
  (ctx.find? (fun p => p.fst = k)).map Prod.snd

/-- IAM `StringEquals`-style condition evaluation: the key must be present
in the context and its value must be one of the listed values.  (Only
`StringEquals` occurs in this stack; other operators are not modelled and
never hold.) -/
def condHolds (ctx : List (String × String)) (c : Condition) : Bool :=
  if c.op = "StringEquals" then
    match lookupCtx ctx c.key with
    | some v => c.values.contains v
    | none => false
  else false

/-- IAM action-pattern matching as used by this stack's statements: the
full wildcard, a trailing-`*` service wildcard such as `codeartifact:*`,
or an exact action name. -/
def actionMatches (pat a : String) : Bool :=
  if pat = "*" then true
  else if strEndsWith pat "*" then strStartsWith a (pat.dropRight 1)
  else pat = a

/-- Resource-pattern matching: `"*"` matches everything, an exact ARN
matches only itself. -/
def arnPatMatches (p : ArnPattern) (r : ResId) : Bool :=
  match p with
  | ArnPattern.star => true
  | ArnPattern.exact x => x = r

/-- A single Allow statement permits a request iff the action matches one
of its action patterns, the resource matches one of its resource entries,
and every condition holds in the request context. -/
def statementAllows (st : PolicyStatement) (rq : Request) : Bool :=
  (st.effect = Effect.allow : Bool)
    && st.actions.any (fun p => actionMatches p rq.action)
    && st.resources.any (fun p => arnPatMatches p rq.resource)
    && st.conditions.all (fun c => condHolds rq.context c)

/-- Who receives a grant. -/
inductive Grantee
  | lambda_grantee
  | build_project_grantee
  | apigateway_service_principal
deriving DecidableEq

/-- What a grant targets. -/
inductive GrantTarget
  | bucket_target
  | git_secret_target
  | lambda_target
deriving DecidableEq

/-- The access a grant conveys. -/
inductive GrantKind
  | read_write
  | read
  | invoke
deriving DecidableEq

/-- One `grant_*` call. -/
structure Grant where
  target : GrantTarget
  grantee : Grantee
  kind : GrantKind
deriving DecidableEq

/-- The four grant calls at the end of the stack, in source order:
`bucket.grant_read_write(project_generator_lambda)`,
`bucket.grant_read_write(build_project)`,
`git_secret.grant_read(project_generator_lambda)`,
`project_generator_lambda.grant_invoke(iam.ServicePrincipal("apigateway.amazonaws.com"))`. -/
def stack_grants : List Grant :=
  [ { target := GrantTarget.bucket_target
      grantee := Grantee.lambda_grantee
      kind := GrantKind.read_write }
  , { target := GrantTarget.bucket_target
      grantee := Grantee.build_project_grantee
      kind := GrantKind.read_write }
  , { target := GrantTarget.git_secret_target
      grantee := Grantee.lambda_grantee
      kind := GrantKind.read }
  , { target := GrantTarget.lambda_target
      grantee := Grantee.apigateway_service_principal
      kind := GrantKind.invoke } ]

/-- The logical id of the construct each grant target denotes. -/
def target_id : GrantTarget → String
  | GrantTarget.bucket_target => "ProjectArtifactsBucket"
  | GrantTarget.git_secret_target => "GitHubPATSecret"
  | GrantTarget.lambda_target => "PipelineBuilderLambda"

/-- The logical id of the construct each concrete resource id denotes
(`other` carries its ARN itself). -/
def res_owner : ResId → String
  | ResId.buildProjectRes => "BuildProject"
  | ResId.gitSecretRes => "GitHubPATSecret"
  | ResId.bucketRes => "ProjectArtifactsBucket"
  | ResId.other arn => arn

/-- Kinds of resources the stack creates. -/
inductive ResourceKind
  | s3_bucket
  | ca_domain
  | ca_repository
  | codebuild_project_kind
  | secret_kind
  | lambda_layer
  | lambda_function_kind
  | rest_api
deriving DecidableEq

/-- A created construct: logical id, kind, and the explicit ordering
dependencies declared on it. -/
structure StackResource where
  logical_id : String
  kind : ResourceKind
  depends_on : List String
deriving DecidableEq

/-- The constructs the stack creates, in source order.  The repository's
`depends_on` records the call
`codeartifact_repository.add_dependency(codeartifact_domain)`; no other
construct declares an explicit dependency.  (`git_layer` is imported with
`from_layer_version_arn`, not created, so it is not listed.) -/
def stack_resources : List StackResource :=
  [ { logical_id := "ProjectArtifactsBucket", kind := ResourceKind.s3_bucket, depends_on := [] }
  , { logical_id := "ArtifactDomain", kind := ResourceKind.ca_domain, depends_on := [] }
  , { logical_id := "ArtifactRepository", kind := ResourceKind.ca_repository, depends_on := ["ArtifactDomain"] }
  , { logical_id := "BuildProject", kind := ResourceKind.codebuild_project_kind, depends_on := [] }
  , { logical_id := "GitHubPATSecret", kind := ResourceKind.secret_kind, depends_on := [] }
  , { logical_id := "PipelineBuilderLayer", kind := ResourceKind.lambda_layer, depends_on := [] }
  , { logical_id := "PipelineBuilderLambda", kind := ResourceKind.lambda_function_kind, depends_on := [] }
  , { logical_id := "PipelineBuilderApi", kind := ResourceKind.rest_api, depends_on := [] }
  ]

/-- A creation order is valid when it lists every created construct and
places each construct after everything it declares a dependency on. -/
def valid_creation_order (order : List String) : Prop :=
  (∀ r ∈ stack_resources, r.logical_id ∈ order) ∧
  ∀ r ∈ stack_resources, ∀ d ∈ r.depends_on,
    order.indexOf d < order.indexOf r.logical_id

/-- Models the shell pipeline in the build-phase command
`PROJECT_NAME=\x60ls -1 | head -1\x60`: `ls -1` prints the directory
entries one per line in lexicographic order, and `head -1` keeps the first
line, so the pipeline yields the least entry of the listing, or nothing
when the listing is empty.  There is no check that the listing has exactly
one entry. -/
def ls_head_1 (listing : List String) : Option String :=
  (listing.mergeSort (fun a b => decide (a ≤ b))).head?

/-- C8: the Artifact Bucket is declared with versioning enabled and with
the destroy-on-stack-deletion removal policy. -/
theorem c8_bucket_versioned_and_destroyed :
    bucket.versioned = true ∧ bucket.removal_policy = RemovalPolicy.destroy :=
  ⟨rfl, rfl⟩

/-- C9: the declared HTTP API exposes exactly one resource, named
`project`, with exactly one method, `POST`, whose integration is the
(synchronous) Lambda integration targeting the Project-Generator
Function's construct — which is the one lambda function the stack
creates. -/
theorem c9_api_single_post_project :
    api_resources.length = 1 ∧
    api_resources.map ApiResource.path_part = ["project"] ∧
    (api_resources.map fun r => r.methods.map ApiMethod.http_method) = [["POST"]] ∧
    (api_resources.map fun r => r.methods.map ApiMethod.integration_target) =
      [["PipelineBuilderLambda"]] ∧
    (api_resources.map fun r => r.methods.map ApiMethod.synchronous) = [[true]] ∧
    (∃ r ∈ stack_resources,
      r.logical_id = "PipelineBuilderLambda" ∧
      r.kind = ResourceKind.lambda_function_kind) ∧
    (stack_resources.filter
      (fun r => r.kind = ResourceKind.lambda_function_kind)).length = 1 := by
  decide

/-- C4: the build spec declares the `pre_build` phase before the `build`
phase; the authorization-token export command is in `pre_build`; every
`aws s3 cp` command of the whole spec is in the `build` phase (and none in
`pre_build`); and inside `build` the fetch comes first, then the unzip,
then the Java build tool, then the TypeScript publish, then the Java
publish last. -/
theorem c4_build_spec_structure :
    build_spec.phases.map BuildPhase.phase_name = ["pre_build", "build"] ∧
    "export CODEARTIFACT_AUTH_TOKEN=`aws codeartifact get-authorization-token --domain $\x7bCODEARTIFACT_DOMAIN\x7d --query authorizationToken --output text`"
      ∈ pre_build_commands ∧
    pre_build_commands.filter (fun c => containsSub c "aws s3 cp") = [] ∧
    ((pre_build_commands ++ build_commands).filter
      (fun c => containsSub c "aws s3 cp")).all
        (fun c => build_commands.contains c) = true ∧
    build_commands.indexOf "aws s3 cp $\x7bPROJECT_S3_ZIP\x7d project.zip" = 0 ∧
    build_commands.indexOf "unzip project.zip -d $\x7bUNZIP_DIR\x7d" = 1 ∧
    build_commands.indexOf "./gradlew build" = 5 ∧
    build_commands.indexOf "npm publish" = 12 ∧
    build_commands.indexOf "./gradlew publish" = 18 ∧
    build_commands.length = 19 := by
  decide

/-- C6 counterexample: the build commands do require `PROJECT_S3_ZIP`,
but it is not among the keys of the Build Project's declared environment
variables, so not every required input is injected by the stack. -/
theorem c6_project_s3_zip_not_injected :
    build_commands.any (fun c => containsSub c "$\x7bPROJECT_S3_ZIP\x7d") = true ∧
    "PROJECT_S3_ZIP" ∉ build_project.environment_variables.map Prod.fst := by
  decide

/-- C6 (amended): of the three environment-variable inputs the build
phase commands require, `CODEARTIFACT_DOMAIN` and `CODEARTIFACT_REPOSITORY`
are injected by the stack into the Build Project's declared environment
variables, while `PROJECT_S3_ZIP` is required by the commands but not
declared there (it must be supplied when the build is started). -/
theorem c6_injected_env_vars :
    build_project.environment_variables.map Prod.fst =
      ["CODEARTIFACT_DOMAIN", "CODEARTIFACT_REPOSITORY"] ∧
    (pre_build_commands ++ build_commands).any
      (fun c => containsSub c "$\x7bCODEARTIFACT_DOMAIN\x7d") = true ∧
    build_commands.any
      (fun c => containsSub c "$\x7bCODEARTIFACT_REPOSITORY\x7d") = true ∧
    build_commands.any (fun c => containsSub c "$\x7bPROJECT_S3_ZIP\x7d") = true ∧
    "PROJECT_S3_ZIP" ∉ build_project.environment_variables.map Prod.fst := by
  decide

/-- C1: the statement added to the Project-Generator Function's role is an
Allow for `codebuild:StartBuild` whose resource list is exactly the Build
Project's ARN, so any request it permits is a `codebuild:StartBuild` on
that build project and on no other resource. -/
theorem c1_start_build_scoped (rq : Request)
    (h : statementAllows start_build_statement rq = true) :
    rq.action = "codebuild:StartBuild" ∧ rq.resource = ResId.buildProjectRes ∧
    start_build_statement ∈ project_generator_lambda_role_policies ∧
    start_build_statement.effect = Effect.allow ∧
    start_build_statement.resources = [ArnPattern.exact ResId.buildProjectRes] := by
  have key : rq.action = "codebuild:StartBuild" ∧ rq.resource = ResId.buildProjectRes := by
    unfold statementAllows start_build_statement at h
    simp only [ List.any_cons, List.any_nil, List.all_nil, Bool.or_false,
      Bool.and_true, Bool.and_eq_true, decide_eq_true_eq] at h
    obtain ⟨⟨-, hact⟩, hres⟩ := h
    constructor
    · unfold actionMatches at hact
      rw [ if_neg (by decide), if_neg (by decide)] at hact
      simpa [ eq_comm] using hact
    · unfold arnPatMatches at hres
      simpa [ eq_comm] using hres
  exact ⟨key.1, key.2, by decide, rfl, rfl⟩

/-- A concrete request permitted by the function's StartBuild statement. -/
def c1_request : Request :=
  { action := "codebuild:StartBuild"
    resource := ResId.buildProjectRes
    context := [] }

/-- Witness for C1: the StartBuild statement does permit the request that
names the Build Project, and the theorem's conclusions hold there. -/
theorem c1_start_build_scoped_witness :
    c1_request.action = "codebuild:StartBuild" ∧
    c1_request.resource = ResId.buildProjectRes ∧
    start_build_statement ∈ project_generator_lambda_role_policies ∧
    start_build_statement.effect = Effect.allow ∧
    start_build_statement.resources = [ArnPattern.exact ResId.buildProjectRes] :=
  c1_start_build_scoped c1_request (by decide)

/-- C2: the `sts:GetServiceBearerToken` statement on the Build Project's
role carries the `StringEquals` condition on `sts:AWSServiceName`, so any
request it permits carries `sts:AWSServiceName =
codeartifact.amazonaws.com` in its context — a request whose service name
is anything else is not permitted by this statement. -/
theorem c2_bearer_token_condition (rq : Request)
    (h : statementAllows bearer_token_statement rq = true) :
    lookupCtx rq.context "sts:AWSServiceName" = some "codeartifact.amazonaws.com" ∧
    rq.action = "sts:GetServiceBearerToken" ∧
    bearer_token_statement ∈ build_project_role_policies ∧
    bearer_token_statement.conditions =
      [{ op := "StringEquals", key := "sts:AWSServiceName",
         values := ["codeartifact.amazonaws.com"] }] := by
  unfold statementAllows bearer_token_statement at h
  simp only [ List.any_cons, List.any_nil, List.all_cons, List.all_nil,
    Bool.or_false, Bool.and_true, Bool.and_eq_true, decide_eq_true_eq] at h
  obtain ⟨⟨⟨-, hact⟩, -⟩, hcond⟩ := h
  refine ⟨?_, ?_, by decide, rfl⟩
  · have h' : (match lookupCtx rq.context "sts:AWSServiceName" with
      | some v => (["codeartifact.amazonaws.com"] : List String).contains v
      | none => false) = true := hcond
    clear hcond
    cases hl : lookupCtx rq.context "sts:AWSServiceName" with
    | none => rw [ hl] at h'; cases h'
    | some v =>
      rw [ hl] at h'
      simp only [ List.contains_cons, List.contains_nil, Bool.or_false,
        beq_iff_eq] at h'
      rw [ h']
  · unfold actionMatches at hact
    rw [ if_neg (by decide), if_neg (by decide)] at hact
    simpa [ eq_comm] using hact

/-- A concrete request whose context carries the CodeArtifact service
name, permitted by the bearer-token statement. -/
def c2_request : Request :=
  { action := "sts:GetServiceBearerToken"
    resource := ResId.other "arn:aws:sts:::token"
    context := [("sts:AWSServiceName", "codeartifact.amazonaws.com")] }

/-- Witness for C2: the bearer-token statement permits the request with
the CodeArtifact service name, and the theorem's conclusions hold there. -/
theorem c2_bearer_token_condition_witness :
    lookupCtx c2_request.context "sts:AWSServiceName" =
      some "codeartifact.amazonaws.com" ∧
    c2_request.action = "sts:GetServiceBearerToken" ∧
    bearer_token_statement ∈ build_project_role_policies ∧
    bearer_token_statement.conditions =
      [{ op := "StringEquals", key := "sts:AWSServiceName",
         values := ["codeartifact.amazonaws.com"] }] :=
  c2_bearer_token_condition c2_request (by decide)

/-- C3: the stack declares exactly one package Repository; that repository
declares the explicit dependency on its Domain; and in every valid
creation order the Domain is created strictly before the Repository. -/
theorem c3_repository_after_domain (order : List String)
    (h : valid_creation_order order) :
    order.indexOf "ArtifactDomain" < order.indexOf "ArtifactRepository" ∧
    (stack_resources.filter
      (fun r => r.kind = ResourceKind.ca_repository)).length = 1 ∧
    ∃ rep ∈ stack_resources,
      rep.kind = ResourceKind.ca_repository ∧
      rep.logical_id = "ArtifactRepository" ∧
      rep.depends_on = ["ArtifactDomain"] := by
  refine ⟨?_, by decide, by decide⟩
  exact h.2
    { logical_id := "ArtifactRepository"
      kind := ResourceKind.ca_repository
      depends_on := ["ArtifactDomain"] }
    (by decide) "ArtifactDomain" (by decide)

/-- The source order of the created constructs, a valid creation order. -/
def construction_order : List String :=
  stack_resources.map StackResource.logical_id

/-- Witness for C3: the source construction order is a valid creation
order, and there the Domain indeed comes before the Repository. -/
theorem c3_repository_after_domain_witness :
    construction_order.indexOf "ArtifactDomain" <
      construction_order.indexOf "ArtifactRepository" ∧
    (stack_resources.filter
      (fun r => r.kind = ResourceKind.ca_repository)).length = 1 ∧
    ∃ rep ∈ stack_resources,
      rep.kind = ResourceKind.ca_repository ∧
      rep.logical_id = "ArtifactRepository" ∧
      rep.depends_on = ["ArtifactDomain"] :=
  c3_repository_after_domain construction_order ⟨by decide, by decide⟩

/-- C5: the directory-discovery command is one of the build-phase
commands; on the empty listing the modelled pipeline yields nothing; and
on every non-empty listing — with one entry or with many, no check either
way — it yields the alphabetically least entry of the listing. -/
theorem c5_first_entry_discovery (l : List String) (hne : l ≠ []) :
    "PROJECT_NAME=`ls -1 | head -1`" ∈ build_commands ∧
    ls_head_1 [] = none ∧
    ∃ x, ls_head_1 l = some x ∧ x ∈ l ∧ ∀ y ∈ l, x ≤ y := by
  refine ⟨by decide, by simp [ ls_head_1, List.mergeSort_nil], ?_⟩
  have htrans : ∀ (a b c : String),
      (fun a b : String => decide (a ≤ b)) a b = true →
      (fun a b : String => decide (a ≤ b)) b c = true →
      (fun a b : String => decide (a ≤ b)) a c = true := by
    intro a b c hab hbc
    simp only [ decide_eq_true_eq] at *
    exact le_trans hab hbc
  have htotal : ∀ (a b : String),
      ((fun a b : String => decide (a ≤ b)) a b ||
       (fun a b : String => decide (a ≤ b)) b a) = true := by
    intro a b
    simp only [ Bool.or_eq_true, decide_eq_true_eq]
    exact le_total a b
  have hperm := List.mergeSort_perm l (fun a b : String => decide (a ≤ b))
  have hsorted := List.sorted_mergeSort htrans htotal l
  cases hs : l.mergeSort (fun a b : String => decide (a ≤ b)) with
  | nil =>
    rw [ hs] at hperm
    exact absurd hperm.symm.eq_nil hne
  | cons x rest =>
    rw [ hs] at hperm hsorted
    refine ⟨x, ?_, ?_, ?_⟩
    · unfold ls_head_1
      rw [ hs]
      rfl
    · exact hperm.subset (List.mem_cons_self x rest)
    · intro y hy
      have hy' : y ∈ x :: rest := hperm.mem_iff.mpr hy
      rcases List.mem_cons.mp hy' with h | h
      · exact le_of_eq h.symm
      · have := (List.pairwise_cons.mp hsorted).1 y h
        simpa [ decide_eq_true_eq] using this

/-- Witness for C5 on a listing with three top-level entries: the
pipeline silently selects the alphabetically first one. -/
theorem c5_first_entry_discovery_witness :
    "PROJECT_NAME=`ls -1 | head -1`" ∈ build_commands ∧
    ls_head_1 [] = none ∧
    ∃ x, ls_head_1 ["beta", "alpha", "gamma"] = some x ∧
      x ∈ ["beta", "alpha", "gamma"] ∧
      ∀ y ∈ ["beta", "alpha", "gamma"], x ≤ y :=
  c5_first_entry_discovery ["beta", "alpha", "gamma"] (by decide)

/-- No string starts with both `secretsmanager:` and `codeartifact:`. -/
theorem secretsmanager_codeartifact_disjoint (a : String)
    (h : strStartsWith a "secretsmanager:" = true) :
    strStartsWith a "codeartifact:" = false := by
  by_contra hc
  rw [ Bool.not_eq_false] at hc
  unfold strStartsWith at h hc
  rw [ List.isPrefixOf_iff_prefix] at h hc
  have hp := List.prefix_of_prefix_length_le hc h (by decide)
  rw [ ← List.isPrefixOf_iff_prefix] at hp
  exact absurd hp (by decide)

/-- C7: the stack declares exactly one secret; read access on it is
granted to the Project-Generator Function; no grant targets the secret
for the Build Project; and neither statement on the Build Project's role
permits any `secretsmanager:` action on any resource. -/
theorem c7_secret_isolated_from_build_project (st : PolicyStatement)
    (hst : st ∈ build_project_role_policies)
    (rq : Request)
    (ha : strStartsWith rq.action "secretsmanager:" = true) :
    statementAllows st rq = false ∧
    (stack_resources.filter
      (fun r => r.kind = ResourceKind.secret_kind)).length = 1 ∧
    ({ target := GrantTarget.git_secret_target, grantee := Grantee.lambda_grantee,
       kind := GrantKind.read } : Grant) ∈ stack_grants ∧
    stack_grants.filter (fun g =>
      decide (g.grantee = Grantee.build_project_grantee) &&
      decide (g.target = GrantTarget.git_secret_target)) = [] := by
  refine ⟨?_, by decide, by decide, by decide⟩
  have hca : actionMatches "codeartifact:*" rq.action = false := by
    unfold actionMatches
    rw [ if_neg (by decide), if_pos (by decide)]
    have hdrop : ("codeartifact:*".dropRight 1) = "codeartifact:" := by decide
    rw [ hdrop]
    exact secretsmanager_codeartifact_disjoint rq.action ha
  have hsts : actionMatches "sts:GetServiceBearerToken" rq.action = false := by
    unfold actionMatches
    rw [ if_neg (by decide), if_neg (by decide)]
    simp only [ decide_eq_false_iff_not]
    intro he
    rw [ ← he] at ha
    exact absurd ha (by decide)
  simp only [ build_project_role_policies, List.mem_cons, List.mem_singleton,
    List.not_mem_nil, or_false] at hst
  rcases hst with rfl | rfl
  · unfold statementAllows codeartifact_statement
    simp [ hca]
  · unfold statementAllows bearer_token_statement
    simp [ hsts]

/-- A concrete secretsmanager request used to witness C7. -/
def c7_request : Request :=
  { action := "secretsmanager:GetSecretValue"
    resource := ResId.gitSecretRes
    context := [] }

/-- Witness for C7: the codeartifact statement of the Build Project's
role does not permit reading the secret, and the closed facts hold. -/
theorem c7_secret_isolated_from_build_project_witness :
    statementAllows codeartifact_statement c7_request = false ∧
    (stack_resources.filter
      (fun r => r.kind = ResourceKind.secret_kind)).length = 1 ∧
    ({ target := GrantTarget.git_secret_target, grantee := Grantee.lambda_grantee,
       kind := GrantKind.read } : Grant) ∈ stack_grants ∧
    stack_grants.filter (fun g =>
      decide (g.grantee = Grantee.build_project_grantee) &&
      decide (g.target = GrantTarget.git_secret_target)) = [] :=
  c7_secret_isolated_from_build_project codeartifact_statement (by decide)
    c7_request (by decide)

/-- C10: the function's declared environment has exactly the three keys
`BUCKET_NAME`, `GIT_SECRET_ARN` and `CODEBUILD_PROJECT`, referencing the
bucket, the secret and the build project respectively; and every
environment entry's referenced construct is one the function is wired to —
either the target of a grant whose grantee is the function, or the exact
resource of a statement on the function's role. -/
theorem c10_env_matches_grants :
    (("BUCKET_NAME", Attr.bucket_name) ∈ project_generator_lambda.environment ∧
     ("GIT_SECRET_ARN", Attr.secret_arn) ∈ project_generator_lambda.environment ∧
     ("CODEBUILD_PROJECT", Attr.build_project_name) ∈ project_generator_lambda.environment ∧
     project_generator_lambda.environment.length = 3) ∧
    ∀ e ∈ project_generator_lambda.environment,
      (∃ g ∈ stack_grants, g.grantee = Grantee.lambda_grantee ∧
        target_id g.target = attr_owner e.snd) ∨
      ∃ st ∈ project_generator_lambda_role_policies,
        st.resources.any (fun p =>
          match p with
          | ArnPattern.exact r => decide (res_owner r = attr_owner e.snd)
          | ArnPattern.star => false) = true := by
  decide

/-- Witness for C10 at the `CODEBUILD_PROJECT` entry: it is wired through
the StartBuild statement on the function's role. -/
theorem c10_env_matches_grants_witness :
    (∃ g ∈ stack_grants, g.grantee = Grantee.lambda_grantee ∧
      target_id g.target = attr_owner ("CODEBUILD_PROJECT", Attr.build_project_name).snd) ∨
    ∃ st ∈ project_generator_lambda_role_policies,
      st.resources.any (fun p =>
        match p with
        | ArnPattern.exact r =>
            decide (res_owner r = attr_owner ("CODEBUILD_PROJECT", Attr.build_project_name).snd)
        | ArnPattern.star => false) = true :=
  c10_env_matches_grants.2 ("CODEBUILD_PROJECT", Attr.build_project_name) (by decide)
